import Mathlib

/-!
Shallow embedding of the go-csc issuance pipeline: the MySQL storage layer
(`pkg/server/storage/mysql.go`) and the enrollment handler
(`Enroll` / `EnrollHost` / `clientAuthenticated` / `clientHostnameMatches` /
`signHost`).  Database statements are modelled as pure functions on explicit
table states; external effects (the driver round-trip, `crypto/rand`,
`time.ParseDuration`, `SignCert`) are injected as explicit outcome values so
the control flow of the Go code can be followed exactly.  A Go panic (nil
pointer dereference) is modelled as `Option.none`.
-/

deriving instance DecidableEq for Except

namespace GoCsc

/-! ### Helpers modelling Go's `strings` package -/

/-- Model of Go `strings.HasSuffix`. -/
def hasSuffix (s sfx : String) : Bool :=
  sfx.data.isSuffixOf s.data

/-- Model of Go `strings.TrimSuffix`: removes the suffix when present. -/
def trimSuffix (s sfx : String) : String :=
  if hasSuffix s sfx then String.mk (s.data.take (s.data.length - sfx.data.length)) else s

/-- Model of `strings.TrimLeft(s, "\n")`. -/
def trimLeftNewlines (s : String) : String :=
  String.mk (s.data.dropWhile (· == '\n'))

/-! ### Model of `golang.org/x/crypto/ssh` values used by the program -/

/-- Model of `ssh.PublicKey`: its authorized-key text as produced by
`ssh.MarshalAuthorizedKey`, the string returned by `Key.Type()`, and the wire
bytes returned by `Marshal()`. -/
structure PublicKey where
  authorizedKey : String
  keyType : String
  wire : List Nat
deriving DecidableEq

/-- Model of `ssh.MarshalAuthorizedKey`. -/
def marshalAuthorizedKey (k : PublicKey) : String :=
  k.authorizedKey

/-- The constant `ssh.UserCert` of `golang.org/x/crypto/ssh`. -/
def sshUserCert : Nat := 1

/-- The constant `ssh.HostCert` of `golang.org/x/crypto/ssh`. -/
def sshHostCert : Nat := 2

/-! ### `pkg/server/storage/mysql.go`: the MySQL storage backend -/

def mysqlHostCert : String := "host_cert"

def mysqlUserCert : String := "user_cert"

/-- `certTypeToMySQL`: converts the certType `uint32` into the MySQL enum
string or returns an error, following the source's `switch`. -/
def certTypeToMySQL (certType : Nat) : Except String String :=
  if certType = sshHostCert then .ok mysqlHostCert
  else if certType = sshUserCert then .ok mysqlUserCert
  else .error ("storage: unknown ssh cert type: " ++ toString certType)

/-- A row of the `hostkeys` table used by `MysqlStorage`. -/
structure HostkeyRow where
  id : Nat
  hostname : String
  pubkey : String
  certType : String
deriving DecidableEq

/-- The `hostkeys` table state: its rows and the next auto-increment id. -/
structure HostkeysTable where
  rows : List HostkeyRow
  nextId : Nat
deriving DecidableEq

/-- Outcome of a database round-trip (`sql.DB.Exec`): either the statement
reaches the server and runs, or the driver reports a failure message. -/
inductive ExecOutcome where
  | ok
  | fail (msg : String)

/-- Model of executing
`INSERT INTO hostkeys (hostname, pubkey, cert_type) VALUES (?, ?, ?) ON DUPLICATE KEY UPDATE pubkey = ?`.
Modelled from the spec: the unique key of `hostkeys` (its schema migrations are
not under `src/`) is `(principal, certType)`.  On the insert path MySQL assigns
a fresh auto-increment id and reports it as `LastInsertId`; on the
duplicate-key update path only `pubkey` changes and the driver does not report
the updated row's id (`LastInsertId` is 0), which is the behavior the source's
TODO comment at `RecordIssuance` calls broken. -/
def mysqlUpsertHostkey (t : HostkeysTable) (hostname pubkey certType : String) :
    HostkeysTable × Nat :=
  if t.rows.any fun r => r.hostname == hostname && r.certType == certType then
    ({ t with rows := t.rows.map fun r =>
        if r.hostname == hostname && r.certType == certType then
          { r with pubkey := pubkey }
        else r },
     0)
  else
    ({ rows := t.rows ++ [{ id := t.nextId, hostname := hostname,
                            pubkey := pubkey, certType := certType }],
       nextId := t.nextId + 1 },
     t.nextId)

/-- `MysqlStorage.RecordIssuance`: marshals the key, converts the cert type,
runs the upsert statement and returns `result.LastInsertId()` as the serial.
The table returned alongside the result is the table as left by the call. -/
def RecordIssuance (exec : ExecOutcome) (db : HostkeysTable)
    (certType : Nat) (principal : String) (pubkey : PublicKey) :
    Except String Nat × HostkeysTable :=
  let pkdata := marshalAuthorizedKey pubkey
  match certTypeToMySQL certType with
  | .error e => (.error e, db)
  | .ok typ =>
    match exec with
    | .fail m => (.error ("error recording issuance: " ++ m), db)
    | .ok =>
      let r := mysqlUpsertHostkey db principal pkdata typ
      (.ok r.2, r.1)

/-- The `github_user_mappings` table: rows of `(sso_identity, github_username)`.
Modelled from the spec: `sso_identity` is the table's unique key (the schema
migrations are not under `src/`), which is what `REPLACE INTO` replaces on. -/
abbrev MappingTable := List (String × String)

/-- Model of executing
`DELETE FROM github_user_mappings WHERE sso_identity NOT IN (...)` with the
given key list.  When `keys` is empty the generated statement ends in
`NOT IN ()`, which is not valid MySQL: `Exec` returns a parse error and no row
is deleted.  Otherwise rows whose identity is not among `keys` are deleted.
`out` injects a driver-level failure of the round-trip. -/
def execDeleteNotIn (out : ExecOutcome) (t : MappingTable) (keys : List String) :
    Except String MappingTable :=
  if keys.isEmpty then .error "Error 1064: syntax error"
  else
    match out with
    | .fail m => .error m
    | .ok => .ok (t.filter fun r => keys.contains r.1)

/-- Model of executing
`REPLACE INTO github_user_mappings (sso_identity, github_username) VALUES ...`:
each entry deletes any existing row with the same `sso_identity` and inserts
the new pair.  An empty `VALUES` list is not valid MySQL. -/
def execReplaceInto (out : ExecOutcome) (t : MappingTable) (entries : MappingTable) :
    Except String MappingTable :=
  if entries.isEmpty then .error "Error 1064: syntax error"
  else
    match out with
    | .fail m => .error m
    | .ok => .ok (entries.foldl (fun a e => a.filter (fun r => r.1 != e.1) ++ [e]) t)

/-- `MysqlStorage.RecordGitHubMapping`: builds the delete and the bulk replace
statements from `mapping` and executes them one after the other as two separate
`Exec` calls (no transaction).  `mapping` is given as a list, one iteration
order of the Go map.  The table returned alongside the result is the table as
left by whichever statements did run. -/
def RecordGitHubMapping (delOut insOut : ExecOutcome) (table : MappingTable)
    (mapping : MappingTable) : Except String Unit × MappingTable :=
  let deleteValues := mapping.map Prod.fst
  match execDeleteNotIn delOut table deleteValues with
  | .error e => (.error ("error deleting mappings: " ++ e), table)
  | .ok t1 =>
    match execReplaceInto insOut t1 mapping with
    | .error e => (.error ("error recording mapping: " ++ e), t1)
    | .ok t2 => (.ok (), t2)

/-! ### The enrollment handler (`main` package) -/

/-- An X.509 certificate, reduced to the subject names that
`VerifyHostname` consults. -/
structure X509Certificate where
  dnsNames : List String
deriving DecidableEq

/-- Model of `(*x509.Certificate).VerifyHostname` (external library): succeeds
exactly when the name is among the certificate's subject names. -/
def verifyHostname (c : X509Certificate) (hostname : String) : Bool :=
  c.dnsNames.contains hostname

/-- Model of `tls.ConnectionState`, reduced to `VerifiedChains`. -/
structure TLSConnectionState where
  verifiedChains : List (List X509Certificate)
deriving DecidableEq

/-- An inbound request: `tls` models the `r.TLS` pointer (`none` when the
request did not arrive over TLS), `readBody` the outcome of
`ioutil.ReadAll(r.Body)`, and `parseKey` the outcome of
`ssh.ParseAuthorizedKey` on that body (external parser). -/
structure Request where
  tls : Option TLSConnectionState
  readBody : Except String String
  parseKey : Except String PublicKey

/-- `clientAuthenticated`: `len(r.TLS.VerifiedChains) > 0`.  When `r.TLS` is a
nil pointer the field access panics, modelled as `none`. -/
def clientAuthenticated (r : Request) : Option Bool :=
  match r.tls with
  | none => none
  | some conn =>
    match conn.verifiedChains with
    | [] => some false
    | _ :: _ => some true

/-- `clientHostnameMatches`: returns false when there is no verified chain,
otherwise checks the leaf certificate of the first chain.  A nil `r.TLS`
panics (`none`); so does indexing `VerifiedChains[0][0]` on an empty chain. -/
def clientHostnameMatches (hostname : String) (r : Request) : Option Bool :=
  match r.tls with
  | none => none
  | some conn =>
    match conn.verifiedChains with
    | [] => some false
    | chain :: _ =>
      match chain with
      | [] => none
      | cert :: _ => some (verifyHostname cert hostname)

/-- The server configuration fields consumed by the handler. -/
structure Config where
  certDuration : String
  stripSuffix : String
  aliases : List (String × List String)
deriving DecidableEq

/-- Which SQL driver `c.db` was opened with. -/
inductive Driver where
  | sqlite
  | mysql

/-- A row of the handler's `hostkeys` table (this file's older schema has
only hostname and pubkey columns). -/
structure EnrollRow where
  id : Nat
  hostname : String
  pubkey : String
deriving DecidableEq

/-- The handler's `hostkeys` table state with its next auto-assigned row id. -/
structure EnrollTable where
  rows : List EnrollRow
  nextId : Nat
deriving DecidableEq

/-- Model of executing SQLite
`INSERT OR REPLACE INTO hostkeys (hostname, pubkey) VALUES (?, ?)` with
statement arguments `(v1, v2)` in that order: any row conflicting on the
table's unique hostname key is deleted, a fresh row is inserted under a fresh
rowid, and `LastInsertId` reports that rowid.  Modelled from the spec: the
table is keyed by the principal (hostname) column. -/
def sqliteInsertOrReplace (t : EnrollTable) (v1 v2 : String) : EnrollTable × Nat :=
  ({ rows := t.rows.filter (fun r => r.hostname != v1) ++
             [{ id := t.nextId, hostname := v1, pubkey := v2 }],
     nextId := t.nextId + 1 },
   t.nextId)

/-- Model of executing MySQL
`INSERT INTO hostkeys (hostname, pubkey) VALUES (?, ?) ON DUPLICATE KEY UPDATE pubkey = ?`
on the handler's table; as in `mysqlUpsertHostkey`, the duplicate-key update
path changes only `pubkey` and reports no fresh `LastInsertId` (0). -/
def mysqlUpsertEnroll (t : EnrollTable) (hostname pubkey : String) : EnrollTable × Nat :=
  if t.rows.any fun r => r.hostname == hostname then
    ({ t with rows := t.rows.map fun r =>
        if r.hostname == hostname then { r with pubkey := pubkey } else r },
     0)
  else
    ({ rows := t.rows ++ [{ id := t.nextId, hostname := hostname, pubkey := pubkey }],
       nextId := t.nextId + 1 },
     t.nextId)

/-- The constant `sshHostCertificateType = 2` of the handler file. -/
def sshHostCertificateType : Nat := 2

/-- Model of `ssh.Certificate` as populated and signed by `signHost`. -/
structure SSHCertificate where
  nonce : List Nat
  key : PublicKey
  serial : Nat
  certType : Nat
  keyId : String
  validPrincipals : List String
  validAfter : Nat
  validBefore : Nat
deriving DecidableEq

/-- Stand-in for the certificate's `Marshal()` wire bytes (external encoding;
no claim depends on the encoding itself). -/
def SSHCertificate.marshal (c : SSHCertificate) : List Nat :=
  c.nonce ++ c.key.wire ++ [c.serial, c.certType]

/-- Stand-in for `base64.StdEncoding.EncodeToString` (external encoding; no
claim depends on the encoding itself). -/
def base64Encode (bytes : List Nat) : String :=
  String.intercalate "," (bytes.map toString)

/-- The server `context` together with the outcomes of its external effects:
`entropy` is the `crypto/rand` byte stream backing `rand.Read` (`crypto/rand`
fills the whole 32-byte buffer exactly when it returns no error, so a `.ok`
stream yields exactly 32 bytes and `.error` models an entropy failure),
`parseDuration` the result of `time.ParseDuration(conf.CertDuration)` in
seconds, `now` the Unix time of `time.Now()`, `signOutcome` whether
`template.SignCert` succeeds, `driver` which SQL driver `c.db` uses, `exec`
whether the upsert's database round-trip itself fails, and `db` the current
`hostkeys` table. -/
structure Ctx where
  conf : Config
  driver : Driver
  db : EnrollTable
  exec : ExecOutcome
  entropy : Except String (Nat → Nat)
  parseDuration : Except String Nat
  now : Nat
  signOutcome : Except String Unit

/-- The principal list built inside `signHost`: the requested hostname; then,
when a non-empty strip suffix is configured and matches, the hostname with the
suffix trimmed; then the configured aliases for that exact hostname. -/
def buildPrincipals (conf : Config) (hostname : String) : List String :=
  let principals := [hostname]
  let principals :=
    if conf.stripSuffix != "" && hasSuffix hostname conf.stripSuffix then
      principals ++ [trimSuffix hostname conf.stripSuffix]
    else principals
  match conf.aliases.lookup hostname with
  | some aliases => principals ++ aliases
  | none => principals

/-- `signHost`: reads 32 bytes of nonce from `crypto/rand` (failure aborts the
call before any certificate exists), parses the configured duration, derives
the validity window from `time.Now()`, builds the principal list, populates
the template and signs it. -/
def signHost (c : Ctx) (hostname : String) (serial : Nat) (pubkey : PublicKey) :
    Except String SSHCertificate :=
  match c.entropy with
  | .error e => .error e
  | .ok stream =>
    let nonce := (List.range 32).map stream
    match c.parseDuration with
    | .error e => .error e
    | .ok week =>
      let startTime := c.now
      let endTime := startTime + week
      let principals := buildPrincipals c.conf hostname
      let template : SSHCertificate :=
        { nonce := nonce, key := pubkey, serial := serial,
          certType := sshHostCertificateType, keyId := hostname,
          validPrincipals := principals,
          validAfter := startTime, validBefore := endTime }
      match c.signOutcome with
      | .error e => .error e
      | .ok _ => .ok template

/-- `EnrollHost`: reads the body, parses the submitted key, upserts the
`hostkeys` row with the driver-specific statement — note the SQLite call in
the source passes `(encodedPubkey, hostname)` as the statement arguments, in
that order — takes `LastInsertId` as the serial, signs, and encodes the
certificate string.  Returns the result together with the table after the
call. -/
def EnrollHost (c : Ctx) (hostname : String) (r : Request) :
    Except String String × EnrollTable :=
  match r.readBody with
  | .error e => (.error e, c.db)
  | .ok data =>
    let encodedPubkey := trimLeftNewlines data
    match r.parseKey with
    | .error e => (.error e, c.db)
    | .ok pubkey =>
      match c.exec with
      | .fail m => (.error m, c.db)
      | .ok =>
        let r2 :=
          match c.driver with
          | .sqlite => sqliteInsertOrReplace c.db encodedPubkey hostname
          | .mysql => mysqlUpsertEnroll c.db hostname encodedPubkey
        match signHost c hostname r2.2 pubkey with
        | .error e => (.error e, r2.1)
        | .ok signedCert =>
          (.ok (signedCert.key.keyType ++ "-cert-v01@openssh.com " ++
                base64Encode signedCert.marshal),
           r2.1)

/-- What `Enroll` produced: the HTTP status and body written, whether
`ioutil.ReadAll(r.Body)` ran, what was passed to `log.Print`, and the
`hostkeys` table after the call. -/
structure EnrollOutcome where
  status : Nat
  body : String
  bodyRead : Bool
  logged : List String
  db : EnrollTable
deriving DecidableEq

/-- `Enroll`: the two gate checks, then `EnrollHost`; an error from
`EnrollHost` logs the fixed string `"internal error"` and writes `err.Error()`
to the response with status 500.  `none` models a panic (a nil `r.TLS`
dereference inside the gate predicates). -/
def Enroll (c : Ctx) (hostname : String) (r : Request) : Option EnrollOutcome :=
  match clientAuthenticated r with
  | none => none
  | some false =>
    some { status := 401, body := "no client certificate provided",
           bodyRead := false, logged := [], db := c.db }
  | some true =>
    match clientHostnameMatches hostname r with
    | none => none
    | some false =>
      some { status := 403, body := "hostname does not match certificate",
             bodyRead := false, logged := [], db := c.db }
    | some true =>
      match EnrollHost c hostname r with
      | (.error e, db2) =>
        some { status := 500, body := e, bodyRead := true,
               logged := ["internal error"], db := db2 }
      | (.ok cert, db2) =>
        some { status := 200, body := cert, bodyRead := true,
               logged := [], db := db2 }

/-! ### Concrete inputs used by the claim theorems -/

def c1keyA : PublicKey := { authorizedKey := "ssh-rsa AAAA", keyType := "ssh-rsa", wire := [10] }

def c1keyB : PublicKey := { authorizedKey := "ssh-rsa BBBB", keyType := "ssh-rsa", wire := [11] }

def c1db : HostkeysTable := { rows := [], nextId := 1 }

def c1first : Except String Nat × HostkeysTable :=
  RecordIssuance .ok c1db sshHostCert "host1" c1keyA

def c1second : Except String Nat × HostkeysTable :=
  RecordIssuance .ok c1first.2 sshHostCert "host1" c1keyB

def c2key : PublicKey :=
  { authorizedKey := "ssh-ed25519 KEYDATA", keyType := "ssh-ed25519", wire := [12] }

def c2req : Request :=
  { tls := some { verifiedChains := [[{ dnsNames := ["host1"] }]] },
    readBody := .ok "ssh-ed25519 KEYDATA", parseKey := .ok c2key }

def c2ctx1 : Ctx :=
  { conf := { certDuration := "168h", stripSuffix := "", aliases := [] },
    driver := .sqlite, db := { rows := [], nextId := 1 }, exec := .ok,
    entropy := .ok fun _ => 0, parseDuration := .ok 604800, now := 0,
    signOutcome := .ok () }

def c2ctx2 : Ctx := { c2ctx1 with db := (EnrollHost c2ctx1 "host1" c2req).2 }

def c3ctx : Ctx :=
  { conf := { certDuration := "168h", stripSuffix := "", aliases := [] },
    driver := .mysql,
    db := { rows := [{ id := 1, hostname := "other", pubkey := "ssh-rsa ZZZZ" }], nextId := 2 },
    exec := .ok, entropy := .ok fun _ => 0, parseDuration := .ok 604800, now := 0,
    signOutcome := .ok () }

def c3req : Request :=
  { tls := some { verifiedChains := [] }, readBody := .ok "ssh-rsa EEEE",
    parseKey := .error "unread" }

def c6req : Request :=
  { tls := some { verifiedChains := [[{ dnsNames := ["host1"] }]] },
    readBody := .ok "ssh-rsa CCCC",
    parseKey := .ok { authorizedKey := "ssh-rsa CCCC", keyType := "ssh-rsa", wire := [13] } }

def c6ctx : Ctx :=
  { conf := { certDuration := "168h", stripSuffix := "", aliases := [] },
    driver := .mysql, db := { rows := [], nextId := 1 },
    exec := .fail "Error 1064: You have an error in your SQL syntax",
    entropy := .ok fun _ => 0, parseDuration := .ok 604800, now := 0,
    signOutcome := .ok () }

def c7key : PublicKey := { authorizedKey := "ssh-rsa FFFF", keyType := "ssh-rsa", wire := [14] }

def c7ctx : Ctx :=
  { conf := { certDuration := "168h", stripSuffix := ".internal.example.com", aliases := [] },
    driver := .mysql, db := { rows := [], nextId := 1 }, exec := .ok,
    entropy := .ok fun _ => 0, parseDuration := .ok 604800, now := 1700000000,
    signOutcome := .ok () }

def c8req : Request := { tls := none, readBody := .ok "", parseKey := .error "unread" }

def c8req2 : Request :=
  { tls := some { verifiedChains := [] }, readBody := .ok "", parseKey := .error "unread" }

def c9key : PublicKey := { authorizedKey := "ssh-rsa GGGG", keyType := "ssh-rsa", wire := [15] }

def c9errCtx : Ctx :=
  { conf := { certDuration := "168h", stripSuffix := "", aliases := [] },
    driver := .mysql, db := { rows := [], nextId := 1 }, exec := .ok,
    entropy := .error "entropy read failed", parseDuration := .ok 604800, now := 0,
    signOutcome := .ok () }

def c9okCtx : Ctx := { c9errCtx with entropy := .ok fun _ => 0 }

def c9cert : SSHCertificate :=
  { nonce := List.replicate 32 0, key := c9key, serial := 1, certType := 2,
    keyId := "host1", validPrincipals := ["host1"], validAfter := 0,
    validBefore := 604800 }

/-! ### Helper lemma for the identity-mapping replace statement -/

/-- Folding the `REPLACE INTO` entries keeps a key present when it was already
present in the accumulator or occurs among the entries. -/
theorem mem_replaceInto_fold (entries : MappingTable) (acc : MappingTable) (k : String)
    (h : (∃ v, (k, v) ∈ acc) ∨ k ∈ entries.map Prod.fst) :
    ∃ v, (k, v) ∈ entries.foldl (fun a e => a.filter (fun r => r.1 != e.1) ++ [e]) acc := by
  induction entries generalizing acc with
  | nil =>
    simp only [List.map_nil, List.not_mem_nil, or_false] at h
    simpa using h
  | cons e es ih =>
    simp only [List.foldl_cons]
    apply ih
    by_cases hk : k = e.1
    · exact Or.inl ⟨e.2, by simp [hk]⟩
    · rcases h with ⟨v, hv⟩ | hm
      · refine Or.inl ⟨v, List.mem_append_left _ ?_⟩
        rw [List.mem_filter]
        exact ⟨hv, by simp [hk]⟩
      · simp only [List.map_cons, List.mem_cons] at hm
        rcases hm with h1 | h2
        · exact absurd h1 hk
        · exact Or.inr h2

/-! ### Claim theorems -/

/-- C1: the claim says a second `RecordIssuance` for an already-recorded
principal returns a fresh serial corresponding to the row state after the
write.  Evaluating the code: the first call for `host1` returns serial 1 and
stores the row under id 1; the second call (new key) takes the duplicate-key
update path, whose `LastInsertId` does not report the updated row — it
returns 0 while the row after the write still has id 1 and no row has id 0.
This is the breakage the source's own TODO comment records. -/
theorem RecordIssuance_update_serial_broken :
    c1first.1 = .ok 1 ∧
    c1second.1 = .ok 0 ∧
    c1second.2.rows =
      [{ id := 1, hostname := "host1", pubkey := "ssh-rsa BBBB", certType := "host_cert" }] ∧
    c1second.2.rows.all (fun r => r.id != 0) = true := by
  decide

/-- C2: the claim says the enrollment upsert is idempotent with the stored key
column equal to the submitted key.  Evaluating `EnrollHost` twice on the
SQLite driver with principal `host1` and key `ssh-ed25519 KEYDATA`: because
the source passes the statement arguments as `(encodedPubkey, hostname)`, the
single resulting row has the key text in its hostname column and `host1` in
its pubkey column — no row is keyed by the principal and no stored key column
equals the submitted key. -/
theorem EnrollHost_sqlite_swapped_columns :
    (EnrollHost c2ctx2 "host1" c2req).2.rows =
      [{ id := 2, hostname := "ssh-ed25519 KEYDATA", pubkey := "host1" }] ∧
    (EnrollHost c2ctx2 "host1" c2req).2.rows.all
      (fun r => r.hostname != "host1" && r.pubkey != "ssh-ed25519 KEYDATA") = true := by
  decide

/-- C3: a request carrying transport state but no verified chain is rejected
with 401 before the body is read and with the table untouched; a request whose
leaf certificate does not assert the hostname is rejected with 403, again with
no body read and no write. -/
theorem Enroll_rejects_before_body_and_write (c : Ctx) (hostname : String) (r : Request)
    (s : TLSConnectionState) (htls : r.tls = some s) :
    (s.verifiedChains = [] →
      Enroll c hostname r =
        some { status := 401, body := "no client certificate provided",
               bodyRead := false, logged := [], db := c.db }) ∧
    (∀ leaf chain rest, s.verifiedChains = (leaf :: chain) :: rest →
      verifyHostname leaf hostname = false →
      Enroll c hostname r =
        some { status := 403, body := "hostname does not match certificate",
               bodyRead := false, logged := [], db := c.db }) := by
  constructor
  · intro hch
    simp [Enroll, clientAuthenticated, htls, hch]
  · intro leaf chain rest hch hv
    simp [Enroll, clientAuthenticated, clientHostnameMatches, htls, hch, hv]

/-- C3 witness: the 401 branch at a concrete unauthenticated request. -/
theorem Enroll_rejects_before_body_and_write_witness :
    c3req.tls = some { verifiedChains := [] } ∧
    Enroll c3ctx "host1" c3req =
      some { status := 401, body := "no client certificate provided",
             bodyRead := false, logged := [], db := c3ctx.db } :=
  ⟨rfl, (Enroll_rejects_before_body_and_write c3ctx "host1" c3req
          { verifiedChains := [] } rfl).1 rfl⟩

/-- C4 counterexample: with an empty mapping the generated statement is
`DELETE ... WHERE sso_identity NOT IN ()`, which MySQL rejects as a syntax
error, so the call returns an error and the non-empty table is left unchanged
rather than emptied. -/
theorem RecordGitHubMapping_empty_fails :
    RecordGitHubMapping .ok .ok [("alice", "gh-alice")] [] =
      (.error "error deleting mappings: Error 1064: syntax error",
       [("alice", "gh-alice")]) ∧
    ([("alice", "gh-alice")] : MappingTable) ≠ [] := by
  decide

/-- C4 amended: `RecordGitHubMapping` with an empty mapping returns an error
(the empty `NOT IN` list is invalid SQL) and deletes nothing — the stored
table is unchanged, whatever it contained. -/
theorem RecordGitHubMapping_empty_leaves_table (delOut insOut : ExecOutcome)
    (t : MappingTable) :
    RecordGitHubMapping delOut insOut t [] =
      (.error ("error deleting mappings: " ++ "Error 1064: syntax error"), t) := by
  simp [RecordGitHubMapping, execDeleteNotIn]

/-- C5 counterexample: the delete and the bulk insert are two separate `Exec`
calls, not one logical unit — when the insert round-trip fails after the
delete succeeded, the call reports an error while bob's row (absent from the
new mapping) has already been deleted and alice's new value has not been
applied. -/
theorem RecordGitHubMapping_delete_without_insert :
    RecordGitHubMapping .ok (.fail "connection reset")
        [("alice", "a1"), ("bob", "b1")] [("alice", "a2")] =
      (.error "error recording mapping: connection reset", [("alice", "a1")]) ∧
    ("bob", "b1") ∉ (RecordGitHubMapping .ok (.fail "connection reset")
        [("alice", "a1"), ("bob", "b1")] [("alice", "a2")]).2 := by
  decide

/-- C5 amended: although delete and insert are not applied as one unit, a
principal present in the new mapping is never left with neither its old nor
its new row: whatever the two statement outcomes, some row for it survives,
because the delete only removes identities absent from the new mapping. -/
theorem RecordGitHubMapping_no_orphaned_principal (delOut insOut : ExecOutcome)
    (t m : MappingTable) (k v : String)
    (hold : (k, v) ∈ t) (hnew : k ∈ m.map Prod.fst) :
    ∃ w, (k, w) ∈ (RecordGitHubMapping delOut insOut t m).2 := by
  have hm : m ≠ [] := by
    rintro rfl
    simp at hnew
  have hne : (m.map Prod.fst).isEmpty = false := by
    cases m with
    | nil => exact absurd rfl hm
    | cons a as => rfl
  have hcontains : (m.map Prod.fst).contains k = true := by
    simpa [List.contains] using List.elem_iff.mpr hnew
  unfold RecordGitHubMapping execDeleteNotIn
  simp only [hne, Bool.false_eq_true, if_false]
  cases delOut with
  | fail msg => exact ⟨v, hold⟩
  | ok =>
    unfold execReplaceInto
    have hm2 : m.isEmpty = false := by
      cases m with
      | nil => exact absurd rfl hm
      | cons a as => rfl
    simp only [hm2, Bool.false_eq_true, if_false]
    cases insOut with
    | fail msg =>
      refine ⟨v, ?_⟩
      rw [List.mem_filter]
      exact ⟨hold, hcontains⟩
    | ok =>
      exact mem_replaceInto_fold m _ k (Or.inr hnew)

/-- C5 amended, witness: alice is in the new mapping and keeps a row even when
the insert fails after the delete ran. -/
theorem RecordGitHubMapping_no_orphaned_principal_witness :
    ("alice", "a1") ∈ ([("alice", "a1"), ("bob", "b1")] : MappingTable) ∧
    "alice" ∈ ([("alice", "a2")] : MappingTable).map Prod.fst ∧
    ∃ w, ("alice", w) ∈ (RecordGitHubMapping .ok (.fail "connection reset")
        [("alice", "a1"), ("bob", "b1")] [("alice", "a2")]).2 :=
  ⟨by decide, by decide,
   RecordGitHubMapping_no_orphaned_principal .ok (.fail "connection reset")
     [("alice", "a1"), ("bob", "b1")] [("alice", "a2")] "alice" "a1"
     (by decide) (by decide)⟩

/-- C6: the claim says internal errors reach the caller only as a generic
message.  Evaluating `Enroll` on an authenticated, matching request whose
upsert fails with driver text: the HTTP response body is the internal SQL
error string verbatim, and the generic string `"internal error"` goes to the
log instead. -/
theorem Enroll_leaks_internal_error :
    Enroll c6ctx "host1" c6req =
      some { status := 500,
             body := "Error 1064: You have an error in your SQL syntax",
             bodyRead := true, logged := ["internal error"], db := c6ctx.db } := by
  decide

/-- C7: with hostname `db1.internal.example.com`, strip suffix
`.internal.example.com` and no aliases, the signed certificate's
valid-principals list is exactly `["db1.internal.example.com", "db1"]` in that
order; in general the list is the requested hostname, then the stripped alias
when a non-empty configured suffix matches, then the configured aliases for
that exact hostname in configured order. -/
theorem signHost_principal_order :
    Except.map (fun cert => cert.validPrincipals)
        (signHost c7ctx "db1.internal.example.com" 5 c7key) =
      .ok ["db1.internal.example.com", "db1"] ∧
    ∀ conf hostname, buildPrincipals conf hostname =
      [hostname] ++
      (if conf.stripSuffix != "" && hasSuffix hostname conf.stripSuffix then
        [trimSuffix hostname conf.stripSuffix]
      else []) ++
      (conf.aliases.lookup hostname).getD [] := by
  constructor
  · decide
  · intro conf hostname
    cases hl : conf.aliases.lookup hostname <;>
      by_cases hc : (conf.stripSuffix != "" && hasSuffix hostname conf.stripSuffix) = true <;>
        simp [buildPrincipals, hl, hc]

/-- C8 counterexample: the claim says the gate predicates return false rather
than crashing when the transport state is missing; on a request whose `r.TLS`
is nil both predicates dereference the nil pointer (a panic, `none`), so
neither returns false. -/
theorem authGate_crashes_on_missing_tls :
    clientAuthenticated c8req = none ∧
    clientHostnameMatches "host1" c8req = none ∧
    clientAuthenticated c8req ≠ some false ∧
    clientHostnameMatches "host1" c8req ≠ some false := by
  decide

/-- C8 amended: when the request does carry transport state the gate
predicates fail closed — with no verified chain both return false, and with a
verified leaf certificate not asserting the hostname the hostname check
returns false. -/
theorem authGate_fail_closed_with_tls (r : Request) (s : TLSConnectionState)
    (hostname : String) (htls : r.tls = some s) :
    (s.verifiedChains = [] →
      clientAuthenticated r = some false ∧
      clientHostnameMatches hostname r = some false) ∧
    (∀ leaf chain rest, s.verifiedChains = (leaf :: chain) :: rest →
      verifyHostname leaf hostname = false →
      clientHostnameMatches hostname r = some false) := by
  constructor
  · intro hch
    constructor
    · simp [clientAuthenticated, htls, hch]
    · simp [clientHostnameMatches, htls, hch]
  · intro leaf chain rest hch hv
    simp [clientHostnameMatches, htls, hch, hv]

/-- C8 amended, witness: a request with transport state and no verified chain
fails both checks closed. -/
theorem authGate_fail_closed_with_tls_witness :
    c8req2.tls = some { verifiedChains := [] } ∧
    (clientAuthenticated c8req2 = some false ∧
     clientHostnameMatches "host1" c8req2 = some false) :=
  ⟨rfl, (authGate_fail_closed_with_tls c8req2 { verifiedChains := [] } "host1" rfl).1 rfl⟩

/-- C9: `signHost` takes its nonce from the 32-byte `crypto/rand` read; when
the entropy read fails the call fails immediately with that error and no
certificate is produced, and every certificate it does produce carries a
32-byte nonce. -/
theorem signHost_entropy_fatal (c : Ctx) (hostname : String) (serial : Nat)
    (k : PublicKey) :
    (∀ e, c.entropy = .error e → signHost c hostname serial k = .error e) ∧
    (∀ cert, signHost c hostname serial k = .ok cert → cert.nonce.length = 32) := by
  constructor
  · intro e he
    simp [signHost, he]
  · intro cert hcert
    unfold signHost at hcert
    cases he : c.entropy with
    | error e => simp [he] at hcert
    | ok stream =>
      simp only [he] at hcert
      cases hd : c.parseDuration with
      | error e => simp [hd] at hcert
      | ok week =>
        simp only [hd] at hcert
        cases hsg : c.signOutcome with
        | error e => simp [hsg] at hcert
        | ok u =>
          simp only [hsg, Except.ok.injEq] at hcert
          rw [← hcert]
          simp

/-- C9 witness: a concrete entropy failure aborts `signHost` with the same
error, and a concrete successful context yields a certificate whose nonce has
32 bytes. -/
theorem signHost_entropy_fatal_witness :
    (c9errCtx.entropy = .error "entropy read failed" ∧
     signHost c9errCtx "host1" 1 c9key = .error "entropy read failed") ∧
    (signHost c9okCtx "host1" 1 c9key = .ok c9cert ∧ c9cert.nonce.length = 32) :=
  ⟨⟨rfl, (signHost_entropy_fatal c9errCtx "host1" 1 c9key).1 "entropy read failed" rfl⟩,
   ⟨by decide, (signHost_entropy_fatal c9okCtx "host1" 1 c9key).2 c9cert (by decide)⟩⟩

/-- C10: for a certType other than the host and user certificate constants,
`RecordIssuance` returns the unknown-cert-type error before any statement is
executed, and the hostkeys table is unchanged. -/
theorem RecordIssuance_unknown_cert_type (exec : ExecOutcome) (db : HostkeysTable)
    (certType : Nat) (principal : String) (k : PublicKey)
    (h1 : certType ≠ sshHostCert) (h2 : certType ≠ sshUserCert) :
    (RecordIssuance exec db certType principal k).1 =
      .error ("storage: unknown ssh cert type: " ++ toString certType) ∧
    (RecordIssuance exec db certType principal k).2 = db := by
  constructor <;> simp [RecordIssuance, certTypeToMySQL, h1, h2]

/-- C10 witness: certType 7 is neither constant; the call errors and leaves
the table as it was. -/
theorem RecordIssuance_unknown_cert_type_witness :
    ((7 : Nat) ≠ sshHostCert ∧ (7 : Nat) ≠ sshUserCert) ∧
    ((RecordIssuance .ok c1db 7 "host1" c1keyA).1 =
       .error ("storage: unknown ssh cert type: " ++ toString (7 : Nat)) ∧
     (RecordIssuance .ok c1db 7 "host1" c1keyA).2 = c1db) :=
  ⟨⟨by decide, by decide⟩,
   RecordIssuance_unknown_cert_type .ok c1db 7 "host1" c1keyA (by decide) (by decide)⟩

end GoCsc
